import Mathlib

/-!
Verification of the voicecast-platform audio core against its
natural-language specification.

Shallow embedding conventions:
* `f32` samples and parameter values are modelled as `ℚ` (exact arithmetic);
  the properties verified here (block lengths, zero-preservation, formula
  shape, field independence, state updates) are structural and do not depend
  on rounding.  `NaN` has no representative in `ℚ`; the corresponding safety
  claims are stated as positivity of the divisors involved.
* The source files embedded are `src-tauri/src/audio/mod.rs` and
  `src-tauri/src/audio/effects.rs`.  Each Lean definition carries the name of
  the Rust item it embeds.
-/

/-- `EffectParams` (effects.rs): a map from parameter names to values,
modelled as an association list with `get` = first lookup. -/
structure EffectParams where
  params : List (String × ℚ)
deriving DecidableEq

/-- `EffectParams::new`: the empty parameter store. -/
def EffectParams.new : EffectParams := ⟨[]⟩

/-- `EffectParams::get`. -/
def EffectParams.get (p : EffectParams) (key : String) : Option ℚ :=
  p.params.lookup key

/-- `EffectParameter` (mod.rs): a read-only parameter descriptor. -/
structure EffectParameter where
  name : String
  value : ℚ
  min : ℚ
  max : ℚ
  step : ℚ
deriving DecidableEq

/-- `EQBand` (mod.rs): one equalizer band. -/
structure EQBand where
  frequency : ℚ
  q : ℚ
  gain : ℚ
deriving DecidableEq

/-- `EQBand::new`. -/
def EQBand.new (frequency q gain : ℚ) : EQBand := ⟨frequency, q, gain⟩

/-- `EQBand::apply` (mod.rs lines 241-245): the placeholder biquad filter,
which returns a copy of its input unchanged. -/
def EQBand.apply (_band : EQBand) (input : List ℚ) : List ℚ :=
  input

/-- `EqualizerEffect` (effects.rs): holds the list of bands. -/
structure EqualizerEffect where
  bands : List EQBand
deriving DecidableEq

/-- `EqualizerEffect::new`: ten fixed bands, every gain 0; the parameter
store argument is ignored (`_params` in the source). -/
def EqualizerEffect.new (_params : EffectParams) : EqualizerEffect :=
  ⟨[EQBand.new 32 1 0, EQBand.new 64 1 0, EQBand.new 125 1 0,
    EQBand.new 250 1 0, EQBand.new 500 1 0, EQBand.new 1000 1 0,
    EQBand.new 2000 1 0, EQBand.new 4000 1 0, EQBand.new 8000 1 0,
    EQBand.new 16000 1 0]⟩

/-- `EqualizerEffect::process`: copies the input, then applies each band's
filter in order. -/
def EqualizerEffect.process (e : EqualizerEffect) (input : List ℚ) : List ℚ :=
  e.bands.foldl (fun output band => band.apply output) input

/-- `EqualizerEffect::get_parameters`: one descriptor `band_<i>` per band,
value = the band's gain, range -12..12, step 0.1. -/
def EqualizerEffect.get_parameters (e : EqualizerEffect) : List EffectParameter :=
  (e.bands.enum).map fun ib =>
    { name := "band_" ++ toString ib.1, value := ib.2.gain,
      min := -12, max := 12, step := 1/10 }

/-- Rust `usize::from_str` as used by `"…".parse::<usize>()`, on the
string's character list: an optional leading `+` followed by at least one
decimal digit.  (Overflow, which Rust rejects, is not modelled; every
overflowing numeral denotes an index far beyond the band count, where
both sides leave the effect unchanged.) -/
def parseUsize (s : List Char) : Option Nat :=
  let cs :=
    match s with
    | '+' :: rest => rest
    | cs => cs
  if cs ≠ [] ∧ cs.all Char.isDigit then
    some (cs.foldl (fun a c => a * 10 + (c.toNat - '0'.toNat)) 0)
  else
    none

/-- Rust `name.strip_prefix("band_")` on the name's character list:
`some rest` exactly when the name is `band_` followed by `rest`. -/
def dropBandTag : List Char → Option (List Char)
  | 'b' :: 'a' :: 'n' :: 'd' :: '_' :: rest => some rest
  | _ => none

/-- Helper for `bands[band_idx].gain = value`: replace the gain of the
band at the given index, leaving the list unchanged when out of range. -/
def setGain : List EQBand → Nat → ℚ → List EQBand
  | [], _, _ => []
  | b :: rest, 0, v => { b with gain := v } :: rest
  | b :: rest, n + 1, v => b :: setGain rest n v

/-- `EqualizerEffect::set_parameter`: strips the `band_` tag, parses the
remainder as a `usize`, and when the index is in range sets that band's
gain; otherwise does nothing. -/
def EqualizerEffect.set_parameter (e : EqualizerEffect) (name : String) (value : ℚ) :
    EqualizerEffect :=
  match dropBandTag name.data with
  | some rest =>
      match parseUsize rest with
      | some idx =>
          if idx < e.bands.length then ⟨setGain e.bands idx value⟩ else e
      | none => e
  | none => e

/-- `CompressorEffect` (effects.rs). -/
structure CompressorEffect where
  threshold : ℚ
  ratio : ℚ
  attack : ℚ
  release : ℚ
  makeup_gain : ℚ
deriving DecidableEq

/-- `CompressorEffect::new`: reads five keys, with the source's defaults. -/
def CompressorEffect.new (params : EffectParams) : CompressorEffect :=
  { threshold := (params.get "threshold").getD (-20)
    ratio := (params.get "ratio").getD 4
    attack := (params.get "attack").getD (1/100)
    release := (params.get "release").getD (1/10)
    makeup_gain := (params.get "makeup").getD 1 }

/-- The divisor of the compressor's gain computation:
`envelope.max(0.001)` (effects.rs line 140). -/
def CompressorEffect.gainDivisor (envelope : ℚ) : ℚ :=
  max envelope (1/1000)

/-- One loop iteration of `CompressorEffect::process` (effects.rs lines
119-144): returns the updated envelope and the output sample. -/
def CompressorEffect.step (c : CompressorEffect) (envelope sample : ℚ) : ℚ × ℚ :=
  let input_level := |sample|
  let target := input_level
  let rate := if target > envelope then c.attack else c.release
  let envelope := envelope + (target - envelope) * rate
  let threshold_linear := |c.threshold| / 100
  let gain :=
    if envelope > threshold_linear then
      let over := envelope - threshold_linear
      let compressed := over / c.ratio
      (threshold_linear + compressed) / CompressorEffect.gainDivisor envelope
    else 1
  (envelope, sample * gain * c.makeup_gain)

/-- The loop of `CompressorEffect::process`, threading the envelope. -/
def CompressorEffect.processGo (c : CompressorEffect) (envelope : ℚ) :
    List ℚ → List ℚ
  | [] => []
  | sample :: rest =>
      let er := c.step envelope sample
      er.2 :: c.processGo er.1 rest

/-- `CompressorEffect::process`: per-sample loop with `envelope`
initialised to `0.0` at the start of every call. -/
def CompressorEffect.process (c : CompressorEffect) (input : List ℚ) : List ℚ :=
  c.processGo 0 input

/-- `CompressorEffect::get_parameters`. -/
def CompressorEffect.get_parameters (c : CompressorEffect) : List EffectParameter :=
  [{ name := "threshold", value := c.threshold, min := -60, max := 0, step := 1/10 },
   { name := "ratio", value := c.ratio, min := 1, max := 20, step := 1/10 },
   { name := "attack", value := c.attack, min := 1/1000, max := 1/10, step := 1/1000 },
   { name := "release", value := c.release, min := 1/100, max := 1, step := 1/100 },
   { name := "makeup", value := c.makeup_gain, min := 0, max := 24, step := 1/10 }]

/-- `CompressorEffect::set_parameter`: a match on the five known names,
with a catch-all arm that does nothing. -/
def CompressorEffect.set_parameter (c : CompressorEffect) (name : String) (value : ℚ) :
    CompressorEffect :=
  if name = "threshold" then { c with threshold := value }
  else if name = "ratio" then { c with ratio := value }
  else if name = "attack" then { c with attack := value }
  else if name = "release" then { c with release := value }
  else if name = "makeup" then { c with makeup_gain := value }
  else c

/-- `ReverbEffect` (effects.rs). -/
structure ReverbEffect where
  room_size : ℚ
  damping : ℚ
  wet_level : ℚ
  dry_level : ℚ
deriving DecidableEq

/-- `ReverbEffect::new`. -/
def ReverbEffect.new (params : EffectParams) : ReverbEffect :=
  { room_size := (params.get "room_size").getD (1/2)
    damping := (params.get "damping").getD (1/2)
    wet_level := (params.get "wet_level").getD (3/10)
    dry_level := (params.get "dry_level").getD (7/10) }

/-- `ReverbEffect::process` (effects.rs lines 225-237): per-sample linear
dry/wet mix. -/
def ReverbEffect.process (r : ReverbEffect) (input : List ℚ) : List ℚ :=
  input.map fun sample =>
    let wet := sample * r.wet_level * r.room_size
    let dry := sample * r.dry_level
    wet + dry

/-- `ReverbEffect::get_parameters`. -/
def ReverbEffect.get_parameters (r : ReverbEffect) : List EffectParameter :=
  [{ name := "room_size", value := r.room_size, min := 0, max := 1, step := 1/100 },
   { name := "damping", value := r.damping, min := 0, max := 1, step := 1/100 },
   { name := "wet_level", value := r.wet_level, min := 0, max := 1, step := 1/100 },
   { name := "dry_level", value := r.dry_level, min := 0, max := 1, step := 1/100 }]

/-- `ReverbEffect::set_parameter`. -/
def ReverbEffect.set_parameter (r : ReverbEffect) (name : String) (value : ℚ) :
    ReverbEffect :=
  if name = "room_size" then { r with room_size := value }
  else if name = "damping" then { r with damping := value }
  else if name = "wet_level" then { r with wet_level := value }
  else if name = "dry_level" then { r with dry_level := value }
  else r

/-- `NoiseGateEffect` (effects.rs). -/
structure NoiseGateEffect where
  threshold : ℚ
  ratio : ℚ
  attack : ℚ
  release : ℚ
deriving DecidableEq

/-- `NoiseGateEffect::new`. -/
def NoiseGateEffect.new (params : EffectParams) : NoiseGateEffect :=
  { threshold := (params.get "threshold").getD (-40)
    ratio := (params.get "ratio").getD 10
    attack := (params.get "attack").getD (1/1000)
    release := (params.get "release").getD (1/10) }

/-- One loop iteration of `NoiseGateEffect::process` (effects.rs lines
313-333). -/
def NoiseGateEffect.step (g : NoiseGateEffect) (envelope sample : ℚ) : ℚ × ℚ :=
  let input_level := |sample|
  let rate := if input_level > envelope then g.attack else g.release
  let envelope := envelope + (input_level - envelope) * rate
  let threshold_linear := |g.threshold| / 100
  let gain := if envelope < threshold_linear then 1 / g.ratio else 1
  (envelope, sample * gain)

/-- The loop of `NoiseGateEffect::process`, threading the envelope. -/
def NoiseGateEffect.processGo (g : NoiseGateEffect) (envelope : ℚ) :
    List ℚ → List ℚ
  | [] => []
  | sample :: rest =>
      let er := g.step envelope sample
      er.2 :: g.processGo er.1 rest

/-- `NoiseGateEffect::process`: envelope restarts at `0.0` each call. -/
def NoiseGateEffect.process (g : NoiseGateEffect) (input : List ℚ) : List ℚ :=
  g.processGo 0 input

/-- `NoiseGateEffect::get_parameters`. -/
def NoiseGateEffect.get_parameters (g : NoiseGateEffect) : List EffectParameter :=
  [{ name := "threshold", value := g.threshold, min := -80, max := 0, step := 1/10 },
   { name := "ratio", value := g.ratio, min := 1, max := 100, step := 1 },
   { name := "attack", value := g.attack, min := 1/1000, max := 1/10, step := 1/1000 },
   { name := "release", value := g.release, min := 1/100, max := 1, step := 1/100 }]

/-- `NoiseGateEffect::set_parameter`. -/
def NoiseGateEffect.set_parameter (g : NoiseGateEffect) (name : String) (value : ℚ) :
    NoiseGateEffect :=
  if name = "threshold" then { g with threshold := value }
  else if name = "ratio" then { g with ratio := value }
  else if name = "attack" then { g with attack := value }
  else if name = "release" then { g with release := value }
  else g

/-- The closed set of `AudioEffect` trait implementors (dyn AudioEffect). -/
inductive Effect
  | equalizer : EqualizerEffect → Effect
  | compressor : CompressorEffect → Effect
  | reverb : ReverbEffect → Effect
  | noiseGate : NoiseGateEffect → Effect
deriving DecidableEq

/-- Dynamic dispatch of `AudioEffect::process`. -/
def Effect.process : Effect → List ℚ → List ℚ
  | .equalizer e, input => e.process input
  | .compressor c, input => c.process input
  | .reverb r, input => r.process input
  | .noiseGate g, input => g.process input

/-- Dynamic dispatch of `AudioEffect::get_parameters`. -/
def Effect.get_parameters : Effect → List EffectParameter
  | .equalizer e => e.get_parameters
  | .compressor c => c.get_parameters
  | .reverb r => r.get_parameters
  | .noiseGate g => g.get_parameters

/-- Dynamic dispatch of `AudioEffect::set_parameter`. -/
def Effect.set_parameter : Effect → String → ℚ → Effect
  | .equalizer e, name, value => .equalizer (e.set_parameter name value)
  | .compressor c, name, value => .compressor (c.set_parameter name value)
  | .reverb r, name, value => .reverb (r.set_parameter name value)
  | .noiseGate g, name, value => .noiseGate (g.set_parameter name value)

/-- The names appearing in an effect's parameter descriptors. -/
def Effect.paramNames (e : Effect) : List String :=
  e.get_parameters.map EffectParameter.name

/-- `AudioConfig` (mod.rs). -/
structure AudioConfig where
  sample_rate : Nat
  channels : Nat
  buffer_size : Nat
  bit_depth : Nat
deriving DecidableEq

/-- `AudioConfig::default`. -/
def AudioConfig.default : AudioConfig :=
  { sample_rate := 48000, channels := 2, buffer_size := 960, bit_depth := 24 }

/-- `AudioLevels` (mod.rs). -/
structure AudioLevels where
  input_level : ℚ
  output_level : ℚ
  peak : ℚ
  rms : ℚ
deriving DecidableEq

/-- `AudioLevels::default`: all four fields zero. -/
def AudioLevels.default : AudioLevels :=
  { input_level := 0, output_level := 0, peak := 0, rms := 0 }

/-- `opus::Channels`. -/
inductive Channels
  | mono
  | stereo
deriving DecidableEq

/-- The channel count denoted by an `opus::Channels` value. -/
def Channels.count : Channels → Nat
  | .mono => 1
  | .stereo => 2

/-- `opus::Application`. -/
inductive Application
  | voip
  | audio
  | lowdelay
deriving DecidableEq

/-- The arguments `AudioEngine::new` passes to `opus::Encoder::new`
together with the quality settings it then applies (`Bitrate::Max`,
complexity 10, `Signal::Music`). -/
structure EncoderInit where
  sample_rate : Nat
  channels : Channels
  application : Application
  bitrate_max : Bool
  complexity : Nat
  signal_music : Bool
deriving DecidableEq

/-- The arguments `AudioEngine::new` passes to `opus::Decoder::new`. -/
structure DecoderInit where
  sample_rate : Nat
  channels : Channels
deriving DecidableEq

/-- The encoder construction performed by `AudioEngine::new` (mod.rs lines
104-114): `opus::Encoder::new(config.sample_rate, Channels::Stereo,
Application::Audio)`, then maximum bitrate, complexity 10, music signal. -/
def AudioEngine.newEncoderInit (config : AudioConfig) : EncoderInit :=
  { sample_rate := config.sample_rate
    channels := Channels.stereo
    application := Application.audio
    bitrate_max := true
    complexity := 10
    signal_music := true }

/-- The decoder construction performed by `AudioEngine::new` (mod.rs lines
116-120): `opus::Decoder::new(config.sample_rate, Channels::Stereo)`. -/
def AudioEngine.newDecoderInit (config : AudioConfig) : DecoderInit :=
  { sample_rate := config.sample_rate, channels := Channels.stereo }

/-- `AudioError` (mod.rs); platform payloads are abstracted to strings. -/
inductive AudioError
  | noInputDevice
  | noOutputDevice
  | streamError (msg : String)
  | buildStreamError (msg : String)
  | defaultStreamConfigError (msg : String)
  | opusError (msg : String)
  | deviceError (msg : String)
deriving DecidableEq

/-- The mutable state owned by an `AudioEngine` that the control-plane
operations touch; the stream handle is an opaque resource (`Unit`). -/
structure AudioEngineState where
  effects_chain : List Effect
  monitoring_enabled : Bool
  current_levels : AudioLevels
  stream : Option Unit
deriving DecidableEq

/-- The engine state `AudioEngine::new` establishes (mod.rs lines 124-136). -/
def AudioEngine.initState : AudioEngineState :=
  { effects_chain := [], monitoring_enabled := false,
    current_levels := AudioLevels.default, stream := none }

/-- `AudioEngine::stop_capture` (mod.rs lines 199-203): sets the stream
slot to `None` and returns `Ok(())`. -/
def AudioEngine.stop_capture (s : AudioEngineState) :
    Except AudioError Unit × AudioEngineState :=
  (Except.ok (), { s with stream := none })

/-- `AudioEngine::get_current_levels` (mod.rs lines 215-217): clones the
levels snapshot. -/
def AudioEngine.get_current_levels (s : AudioEngineState) : AudioLevels :=
  s.current_levels

/-- The levels write performed once per block by the capture callback
(mod.rs lines 167-171): overwrite `input_level` with the block's rms,
`peak` with its peak, `rms` with its rms; `output_level` is not written.
The numeric values of `peak` and `rms` are taken as arguments because the
callback's `sqrt` has no exact rational counterpart; only the write
pattern is at issue here. -/
def captureCallbackLevels (levels : AudioLevels) (peak rms : ℚ) : AudioLevels :=
  { levels with input_level := rms, peak := peak, rms := rms }

/-- The levels snapshot after the engine has processed a sequence of
blocks, each block contributing its measured `(peak, rms)` pair, starting
from the freshly constructed engine's `AudioLevels::default`. -/
def levelsAfterBlocks (metered : List (ℚ × ℚ)) : AudioLevels :=
  metered.foldl (fun levels pr => captureCallbackLevels levels pr.1 pr.2)
    AudioLevels.default


/-- The engine state after a sequence of processed blocks, each block
contributing its measured `(peak, rms)` pair; no control-plane operation
in the source ever writes `output_level`. -/
def engineAfterBlocks (metered : List (ℚ × ℚ)) : AudioEngineState :=
  { AudioEngine.initState with current_levels := levelsAfterBlocks metered }

/-- The default-constructed equalizer (empty parameter store). -/
def eqDefault : EqualizerEffect := EqualizerEffect.new EffectParams.new

/-- The default-constructed compressor (empty parameter store). -/
def compressorDefault : CompressorEffect := CompressorEffect.new EffectParams.new

/-- The default-constructed reverb (empty parameter store). -/
def reverbDefault : ReverbEffect := ReverbEffect.new EffectParams.new

/-- The default-constructed noise gate (empty parameter store). -/
def noiseGateDefault : NoiseGateEffect := NoiseGateEffect.new EffectParams.new

/-- Modelled from the spec's words (§4.3, Compressor row), for comparison
with the source-derived `CompressorEffect.step`: one step of the
per-sample recurrence `envelope += (|sample| - envelope) * rate` with
`rate = attack` if `|sample| > envelope` else `release`;
`threshold_linear = |threshold| / 100`; when `envelope > threshold_linear`,
`gain = (threshold_linear + (envelope - threshold_linear)/ratio) /
max(envelope, 0.001)`, else `gain = 1`; output
`sample * gain * makeup_gain`. -/
def specCompressorStep (threshold ratio attack release makeup_gain : ℚ)
    (envelope sample : ℚ) : ℚ × ℚ :=
  let rate := if |sample| > envelope then attack else release
  let envelope := envelope + (|sample| - envelope) * rate
  let threshold_linear := |threshold| / 100
  let gain :=
    if envelope > threshold_linear then
      (threshold_linear + (envelope - threshold_linear) / ratio) /
        max envelope (1/1000)
    else 1
  (envelope, sample * gain * makeup_gain)

/-- Modelled from the spec's words: the claimed per-sample recurrence run
over a block, threading the envelope. -/
def specCompressorGo (threshold ratio attack release makeup_gain : ℚ)
    (envelope : ℚ) : List ℚ → List ℚ
  | [] => []
  | sample :: rest =>
      let er := specCompressorStep threshold ratio attack release makeup_gain
        envelope sample
      er.2 :: specCompressorGo threshold ratio attack release makeup_gain
        er.1 rest

/-- Modelled from the spec's words: the claimed compressor semantics,
with the envelope starting at 0 at the beginning of each call. -/
def specCompressorProcess (threshold ratio attack release makeup_gain : ℚ)
    (input : List ℚ) : List ℚ :=
  specCompressorGo threshold ratio attack release makeup_gain 0 input

/-- Apply a sequence of `(name, value)` parameter writes in order. -/
def EqualizerEffect.setParams (e : EqualizerEffect) (ps : List (String × ℚ)) :
    EqualizerEffect :=
  ps.foldl (fun e nv => e.set_parameter nv.1 nv.2) e

/-- The §8 round-trip scenario: from a fresh equalizer, set `band_3` to
its maximum 12.0 and every other band to 0, then reset every band gain to
its default 0.0. -/
def eqScenario : EqualizerEffect :=
  let e := EqualizerEffect.new EffectParams.new
  let e := e.set_parameter "band_3" 12
  let e := e.setParams
    [("band_0", 0), ("band_1", 0), ("band_2", 0), ("band_4", 0),
     ("band_5", 0), ("band_6", 0), ("band_7", 0), ("band_8", 0),
     ("band_9", 0)]
  e.setParams
    [("band_0", 0), ("band_1", 0), ("band_2", 0), ("band_3", 0),
     ("band_4", 0), ("band_5", 0), ("band_6", 0), ("band_7", 0),
     ("band_8", 0), ("band_9", 0)]

/-! ## Helper lemmas (shared) -/

/-- Every band's `apply` is the identity, so the equalizer's fold over its
bands returns the input block. -/
theorem eq_bands_foldl_id (bands : List EQBand) (input : List ℚ) :
    bands.foldl (fun output band => band.apply output) input = input := by
  induction bands generalizing input with
  | nil => rfl
  | cons b rest ih => simp [EQBand.apply, ih]

/-- The compressor loop preserves the block length, for any starting
envelope. -/
theorem compressor_processGo_length (c : CompressorEffect) (envelope : ℚ)
    (input : List ℚ) :
    (c.processGo envelope input).length = input.length := by
  induction input generalizing envelope with
  | nil => rfl
  | cons s rest ih => simp [CompressorEffect.processGo, ih]

/-- The noise-gate loop preserves the block length, for any starting
envelope. -/
theorem noiseGate_processGo_length (g : NoiseGateEffect) (envelope : ℚ)
    (input : List ℚ) :
    (g.processGo envelope input).length = input.length := by
  induction input generalizing envelope with
  | nil => rfl
  | cons s rest ih => simp [NoiseGateEffect.processGo, ih]

/-- One compressor step at zero envelope on a zero sample (default
parameters) leaves the envelope at zero and emits a zero sample. -/
theorem compressor_step_zero :
    compressorDefault.step 0 0 = (0, 0) := by
  norm_num [CompressorEffect.step, compressorDefault, CompressorEffect.new,
    CompressorEffect.gainDivisor, EffectParams.get, EffectParams.new]

/-- One noise-gate step at zero envelope on a zero sample (default
parameters) leaves the envelope at zero and emits a zero sample. -/
theorem noiseGate_step_zero :
    noiseGateDefault.step 0 0 = (0, 0) := by
  norm_num [NoiseGateEffect.step, noiseGateDefault, NoiseGateEffect.new,
    EffectParams.get, EffectParams.new]

/-- The default compressor maps an all-zero block to an all-zero block. -/
theorem compressor_zero_go (n : Nat) :
    compressorDefault.processGo 0 (List.replicate n 0) = List.replicate n 0 := by
  induction n with
  | zero => rfl
  | succ k ih =>
      simp only [List.replicate_succ, CompressorEffect.processGo,
        compressor_step_zero, ih]

/-- The default noise gate maps an all-zero block to an all-zero block. -/
theorem noiseGate_zero_go (n : Nat) :
    noiseGateDefault.processGo 0 (List.replicate n 0) = List.replicate n 0 := by
  induction n with
  | zero => rfl
  | succ k ih =>
      simp only [List.replicate_succ, NoiseGateEffect.processGo,
        noiseGate_step_zero, ih]

/-- Folding callback level writes never touches `output_level`. -/
theorem levelsFold_output_level (metered : List (ℚ × ℚ)) (init : AudioLevels) :
    (metered.foldl (fun levels pr => captureCallbackLevels levels pr.1 pr.2)
      init).output_level = init.output_level := by
  induction metered generalizing init with
  | nil => rfl
  | cons p rest ih =>
      rw [List.foldl_cons, ih]
      rfl

/-- Folding callback level writes preserves `input_level = rms`. -/
theorem levelsFold_input_eq_rms (metered : List (ℚ × ℚ)) (init : AudioLevels)
    (h : init.input_level = init.rms) :
    (metered.foldl (fun levels pr => captureCallbackLevels levels pr.1 pr.2)
        init).input_level =
      (metered.foldl (fun levels pr => captureCallbackLevels levels pr.1 pr.2)
        init).rms := by
  induction metered generalizing init with
  | nil => exact h
  | cons p rest ih => exact ih _ rfl

/-! ## Claim theorems -/

/-- C2: for every input block `B` of length `L` and every Effect variant
(Equalizer, Compressor, Reverb, Noise Gate) with any parameter settings,
`process(B)` returns a sequence of length exactly `L`. -/
theorem C2_process_length (e : Effect) (input : List ℚ) :
    (e.process input).length = input.length := by
  cases e with
  | equalizer eq =>
      simp [Effect.process, EqualizerEffect.process, eq_bands_foldl_id]
  | compressor c =>
      simpa [Effect.process, CompressorEffect.process] using
        compressor_processGo_length c 0 input
  | reverb r =>
      simp [Effect.process, ReverbEffect.process]
  | noiseGate g =>
      simpa [Effect.process, NoiseGateEffect.process] using
        noiseGate_processGo_length g 0 input

/-- C6: starting from a freshly constructed Equalizer, setting `band_3`
to 12.0 and every other band to 0, then resetting every band gain to its
default value 0.0, makes `get_parameters` return descriptors equal to
those of the freshly constructed Equalizer. -/
theorem C6_equalizer_roundtrip :
    eqScenario.get_parameters =
      (EqualizerEffect.new EffectParams.new).get_parameters := rfl

/-- C7: `stop_capture` always returns `Ok(())` (also when not capturing),
is idempotent on the engine state, and leaves the stream handle empty. -/
theorem C7_stop_capture (s : AudioEngineState) :
    (AudioEngine.stop_capture s).1 = Except.ok () ∧
    (AudioEngine.stop_capture (AudioEngine.stop_capture s).2).2 =
      (AudioEngine.stop_capture s).2 ∧
    (AudioEngine.stop_capture s).2.stream = none := by
  simp [AudioEngine.stop_capture]

/-- C8: for every input block and every parameter setting, the reverb
maps each sample independently to
`sample * wet_level * room_size + sample * dry_level`, and the `damping`
parameter has no influence on the output. -/
theorem C8_reverb_mix (r : ReverbEffect) (input : List ℚ) :
    r.process input =
      input.map (fun sample =>
        sample * r.wet_level * r.room_size + sample * r.dry_level) ∧
    ∀ d : ℚ, ReverbEffect.process { r with damping := d } input =
      r.process input := by
  exact ⟨rfl, fun d => rfl⟩

/-- C9: the per-block callback writes exactly `input_level = rms`,
`peak = peak`, `rms = rms` and leaves `output_level` unchanged; over the
life of the engine `output_level` stays at its initial 0, and after every
processed block the snapshot returned by `get_current_levels` has
`input_level = rms`. -/
theorem C9_levels_update (levels : AudioLevels) (peak rms : ℚ)
    (metered : List (ℚ × ℚ)) :
    captureCallbackLevels levels peak rms =
      { input_level := rms, output_level := levels.output_level,
        peak := peak, rms := rms } ∧
    (AudioEngine.get_current_levels (engineAfterBlocks metered)).output_level
      = 0 ∧
    (AudioEngine.get_current_levels (engineAfterBlocks metered)).input_level
      = (AudioEngine.get_current_levels (engineAfterBlocks metered)).rms := by
  refine ⟨rfl, ?_, ?_⟩
  · simpa [AudioEngine.get_current_levels, engineAfterBlocks,
      levelsAfterBlocks, AudioLevels.default] using
      levelsFold_output_level metered AudioLevels.default
  · exact levelsFold_input_eq_rms metered AudioLevels.default rfl

/-- C10: the Equalizer's `process` is the identity function for every
band-gain setting, because each band's `apply` returns its input
unchanged; consequently band gains have no effect on the processed
audio. -/
theorem C10_equalizer_identity (e : EqualizerEffect) (input : List ℚ) :
    e.process input = input ∧
    ∀ (name : String) (value : ℚ),
      (e.set_parameter name value).process input = e.process input := by
  refine ⟨eq_bands_foldl_id e.bands input, fun name value => ?_⟩
  simp [EqualizerEffect.process, eq_bands_foldl_id]

/-- C3: for every input block and every parameter setting, the
compressor's `process` computes exactly the spec's per-sample recurrence
(envelope follower, threshold_linear = |threshold|/100, the 0.001-floored
gain quotient, output = sample * gain * makeup_gain), with the envelope
starting at 0 at the beginning of each call. -/
theorem C3_compressor_recurrence (c : CompressorEffect) (input : List ℚ) :
    c.process input =
      specCompressorProcess c.threshold c.ratio c.attack c.release
        c.makeup_gain input := by
  have hstep : ∀ envelope sample : ℚ,
      c.step envelope sample =
        specCompressorStep c.threshold c.ratio c.attack c.release
          c.makeup_gain envelope sample :=
    fun envelope sample => rfl
  suffices h : ∀ (envelope : ℚ) (l : List ℚ),
      c.processGo envelope l =
        specCompressorGo c.threshold c.ratio c.attack c.release
          c.makeup_gain envelope l from h 0 input
  intro envelope l
  induction l generalizing envelope with
  | nil => rfl
  | cons s rest ih =>
      simp only [CompressorEffect.processGo, specCompressorGo,
        hstep envelope s, ih]

/-- C4: for an all-zero input block of any length, the default-parameter
compressor and noise gate return an all-zero block of the same length;
the compressor's gain divisor `max(envelope, 0.001)` is positive for
every envelope value and the noise gate's gain divisor (its ratio, 10 by
default) is nonzero, so no division by zero occurs. -/
theorem C4_zero_block_safety :
    (∀ n : Nat, compressorDefault.process (List.replicate n 0) =
      List.replicate n 0) ∧
    (∀ n : Nat, noiseGateDefault.process (List.replicate n 0) =
      List.replicate n 0) ∧
    (∀ envelope : ℚ, 0 < CompressorEffect.gainDivisor envelope) ∧
    noiseGateDefault.ratio ≠ 0 := by
  refine ⟨fun n => compressor_zero_go n, fun n => noiseGate_zero_go n,
    fun envelope => ?_, ?_⟩
  · have h : (0 : ℚ) < 1/1000 := by norm_num
    exact lt_max_of_lt_right h
  · norm_num [noiseGateDefault, NoiseGateEffect.new, EffectParams.get,
      EffectParams.new]

/-- C1 counterexample: for the config with `channels = 1`, the codec
instances built by `AudioEngine::new` are not parameterised by
`config.channels` — both are created with the hardcoded
`Channels::Stereo` (2 channels). -/
theorem C1_counterexample :
    ¬ ((AudioEngine.newEncoderInit
          { sample_rate := 48000, channels := 1, buffer_size := 960,
            bit_depth := 24 }).channels.count =
        ({ sample_rate := 48000, channels := 1, buffer_size := 960,
            bit_depth := 24 } : AudioConfig).channels ∧
       (AudioEngine.newDecoderInit
          { sample_rate := 48000, channels := 1, buffer_size := 960,
            bit_depth := 24 }).channels.count =
        ({ sample_rate := 48000, channels := 1, buffer_size := 960,
            bit_depth := 24 } : AudioConfig).channels) := by
  decide

/-- C1 (amended): for every accepted `AudioConfig`, `AudioEngine::new`
builds the Encoder and Decoder for `config.sample_rate`, but the channel
count is hardcoded to `Channels::Stereo` regardless of `config.channels`;
the encoder additionally gets maximum bitrate, complexity 10 and the
music signal hint. -/
theorem C1_codec_init (config : AudioConfig) :
    (AudioEngine.newEncoderInit config).sample_rate = config.sample_rate ∧
    (AudioEngine.newEncoderInit config).channels = Channels.stereo ∧
    (AudioEngine.newEncoderInit config).application = Application.audio ∧
    (AudioEngine.newEncoderInit config).bitrate_max = true ∧
    (AudioEngine.newEncoderInit config).complexity = 10 ∧
    (AudioEngine.newEncoderInit config).signal_music = true ∧
    (AudioEngine.newDecoderInit config).sample_rate = config.sample_rate ∧
    (AudioEngine.newDecoderInit config).channels = Channels.stereo :=
  ⟨rfl, rfl, rfl, rfl, rfl, rfl, rfl, rfl⟩

/-- Witness for C1 (amended): the amended theorem evaluated at the
default config. -/
theorem C1_codec_init_witness :
    (AudioEngine.newEncoderInit AudioConfig.default).sample_rate = 48000 ∧
    (AudioEngine.newEncoderInit AudioConfig.default).channels =
      Channels.stereo :=
  ⟨(C1_codec_init AudioConfig.default).1, (C1_codec_init AudioConfig.default).2.1⟩

/-- C5 counterexample: `"band_03"` is not among the Equalizer's parameter
names (those are `band_0` … `band_9`), yet `set_parameter("band_03", 5)`
on a fresh Equalizer changes its state (it sets band 3's gain) and
changes the descriptors returned by `get_parameters`. -/
theorem C5_counterexample :
    "band_03" ∉ Effect.paramNames (Effect.equalizer eqDefault) ∧
    Effect.set_parameter (Effect.equalizer eqDefault) "band_03" 5 ≠
      Effect.equalizer eqDefault ∧
    Effect.get_parameters
        (Effect.set_parameter (Effect.equalizer eqDefault) "band_03" 5) ≠
      Effect.get_parameters (Effect.equalizer eqDefault) := by
  refine ⟨by decide, by decide, fun h => ?_⟩
  exact absurd (congrArg (List.map EffectParameter.value) h) (by decide)

/-- C5 (amended): `set_parameter(name, value)` with a name that is not
one of the effect's parameter names is silently ignored and leaves the
state unchanged for the Compressor, Reverb and Noise Gate; for the
Equalizer the same holds for every name that is not `band_` followed by a
numeral (in Rust `usize` syntax) of an in-range band index — but
non-canonical spellings of an in-range index (such as `band_03`), though
absent from the parameter names, do modify that band's gain. -/
theorem C5_unknown_param_ignored :
    (∀ (c : CompressorEffect) (name : String) (value : ℚ),
       name ∉ Effect.paramNames (Effect.compressor c) →
       c.set_parameter name value = c) ∧
    (∀ (r : ReverbEffect) (name : String) (value : ℚ),
       name ∉ Effect.paramNames (Effect.reverb r) →
       r.set_parameter name value = r) ∧
    (∀ (g : NoiseGateEffect) (name : String) (value : ℚ),
       name ∉ Effect.paramNames (Effect.noiseGate g) →
       g.set_parameter name value = g) ∧
    (∀ (e : EqualizerEffect) (name : String) (value : ℚ),
       (∀ rest, dropBandTag name.data = some rest →
          ∀ idx, parseUsize rest = some idx → ¬ idx < e.bands.length) →
       e.set_parameter name value = e) := by
  refine ⟨?_, ?_, ?_, ?_⟩
  · intro c name value h
    simp only [Effect.paramNames, Effect.get_parameters,
      CompressorEffect.get_parameters, List.map, List.mem_cons,
      List.not_mem_nil, or_false, not_or] at h
    simp [CompressorEffect.set_parameter, h.1, h.2.1, h.2.2.1, h.2.2.2.1,
      h.2.2.2.2]
  · intro r name value h
    simp only [Effect.paramNames, Effect.get_parameters,
      ReverbEffect.get_parameters, List.map, List.mem_cons,
      List.not_mem_nil, or_false, not_or] at h
    simp [ReverbEffect.set_parameter, h.1, h.2.1, h.2.2.1, h.2.2.2]
  · intro g name value h
    simp only [Effect.paramNames, Effect.get_parameters,
      NoiseGateEffect.get_parameters, List.map, List.mem_cons,
      List.not_mem_nil, or_false, not_or] at h
    simp [NoiseGateEffect.set_parameter, h.1, h.2.1, h.2.2.1, h.2.2.2]
  · intro e name value h
    unfold EqualizerEffect.set_parameter
    cases hdrop : dropBandTag name.data with
    | none => rfl
    | some rest =>
        cases hparse : parseUsize rest with
        | none => simp [hparse]
        | some idx =>
            have hlt := h rest hdrop idx hparse
            simp [hparse, hlt]

/-- Witness for C5 (amended): the unknown name `"bogus"` leaves every
default-constructed effect unchanged. -/
theorem C5_unknown_param_ignored_witness :
    CompressorEffect.set_parameter compressorDefault "bogus" 1 =
      compressorDefault ∧
    ReverbEffect.set_parameter reverbDefault "bogus" 1 = reverbDefault ∧
    NoiseGateEffect.set_parameter noiseGateDefault "bogus" 1 =
      noiseGateDefault ∧
    EqualizerEffect.set_parameter eqDefault "bogus" 1 = eqDefault :=
  ⟨C5_unknown_param_ignored.1 compressorDefault "bogus" 1 (by decide),
   C5_unknown_param_ignored.2.1 reverbDefault "bogus" 1 (by decide),
   C5_unknown_param_ignored.2.2.1 noiseGateDefault "bogus" 1 (by decide),
   C5_unknown_param_ignored.2.2.2 eqDefault "bogus" 1 (by
     intro rest hdrop
     rw [show dropBandTag "bogus".data = none from by decide] at hdrop
     exact Option.noConfusion hdrop)⟩
